import Mathlib

/-!
Shallow embedding of the wapi-rawa inbound-reply bot core.

JS strings are embedded as `List Char` (`Str`); JS `null`/absent values as
`Option`; the settings store as a typed snapshot whose fields are the values
`getSetting` would return (`none` models both "key absent" and "read failed",
since `getSetting` catches every error and returns `null`).  The persistent
store (sequelize) is treated as a reliable record repository, per the spec's
scoping; the transport (`getChat` / `chat.sendMessage`) and the AI completion
capability are fallible and modelled by explicit failure-injection plans.
All definitions are translated from the repository's source:
`src/services/botSettings.js`, `src/services/whatsapp.js` (handleIncomingMessage,
saveAIMessage), `src/utils/humanBehavior.js` and `src/ai/service.js`.
-/

namespace Wapi

/-- JS strings, embedded as lists of characters. -/
abbrev Str := List Char

/-- Whitespace recognised by `trim` / `\s` (ASCII fragment of the JS class). -/
def wsChar (c : Char) : Bool :=
  c = ' ' || c = '\t' || c = '\n' || c = '\r'

/-- JS `String.prototype.trim`: strip whitespace from both ends. -/
def trim (s : Str) : Str :=
  ((s.dropWhile wsChar).reverse.dropWhile wsChar).reverse

/-- JS `String.prototype.toUpperCase` (ASCII). -/
def upper (s : Str) : Str := s.map Char.toUpper

/-- JS `String.prototype.toLowerCase` (ASCII). -/
def lower (s : Str) : Str := s.map Char.toLower

/-- JS `haystack.includes(needle)`: substring containment. -/
def includes (haystack needle : Str) : Bool :=
  decide (needle <:+: haystack)

/-- The typed settings snapshot: each field holds what
`botSettingsService.getSetting(key)` returns for that key, with `none` for
JS `null` (key absent, or the read failed and was swallowed). -/
structure Settings where
  auto_reply_enabled : Option Bool
  business_hours_enabled : Option Bool
  business_hours_start : Option Str
  business_hours_end : Option Str
  business_hours_days : Option (List Int)
  out_of_office_enabled : Option Bool
  out_of_office_message : Option Str
  stop_keywords : Option (List Str)
  stop_message : Option Str
  require_human_keywords : Option (List Str)
  require_human_message : Option Str
  max_replies_per_contact : Option Int
  reply_in_groups : Option Bool
  stopped_contacts : Option (List Str)

/-- A settings snapshot in which every key is absent (`getSetting` = null). -/
def emptySettings : Settings :=
  ⟨none, none, none, none, none, none, none, none, none, none, none, none,
   none, none⟩

/-- JS truthiness of an `Option Bool` setting value (null and false are falsy). -/
def obool (o : Option Bool) : Bool := o.getD false

/-- Contact record fields consulted by the decision pipeline. -/
structure ContactRec where
  id : Str
  isGroup : Bool
  name : Str

/-- Result record of `shouldReplyToContact`. -/
structure ShouldReply where
  should : Bool
  reason : Option Str
deriving DecidableEq

/-- JS `Number('..')` on the digit strings produced by splitting `HH:MM`
(empty string is 0; a non-numeric part is NaN, modelled as `none`). -/
def jsNumber (s : Str) : Option Int :=
  if s = [] then some 0
  else (String.toNat? (String.mk s)).map Int.ofNat

/-- Minutes-since-midnight of a clock string, via
`str.split(':').map(Number)` and `h * 60 + m`; `none` when the JS value
would be NaN (which makes every comparison false). -/
def clockMinutes (s : Str) : Option Int :=
  match s.splitOn ':' with
  | h :: m :: _ =>
    match jsNumber h, jsNumber m with
    | some hh, some mm => some (hh * 60 + mm)
    | _, _ => none
  | _ => none

/-- `botSettingsService.checkBusinessHours`, with the current weekday and
minutes-since-midnight passed explicitly (`new Date()` readings). -/
def checkBusinessHours (s : Settings) (day mins : Int) : Bool :=
  let businessDays := s.business_hours_days.getD [1, 2, 3, 4, 5]
  if day ∉ businessDays then false
  else
    let startTime := s.business_hours_start.getD ("09:00".toList)
    let endTime := s.business_hours_end.getD ("17:00".toList)
    match clockMinutes startTime, clockMinutes endTime with
    | some startMinutes, some endMinutes =>
      decide (startMinutes ≤ mins) && decide (mins ≤ endMinutes)
    | _, _ => false

/-- `botSettingsService.isAutoReplyEnabled`: `enabled !== false` (default true). -/
def isAutoReplyEnabled (s : Settings) : Bool :=
  s.auto_reply_enabled ≠ some false

/-- Reason strings of `shouldReplyToContact`, as in the source. -/
def reasonAutoReplyDisabled : Str := "Auto-reply is disabled".toList

/-- Reason string of the business-hours check. -/
def reasonOutsideBusinessHours : Str := "Outside business hours".toList

/-- Reason string of the per-day reply-cap check. -/
def reasonMaxReplies : Str := "Max replies reached for today".toList

/-- Reason string of the stop-list check. -/
def reasonStopped : Str := "Contact has stopped bot".toList

/-- Reason string of the group check. -/
def reasonGroupDisabled : Str := "Group replies disabled".toList

/-- The gating condition of the business-hours block: the setting is truthy
and the clock is outside business hours. -/
def bhFail (s : Settings) (day mins : Int) : Bool :=
  obool s.business_hours_enabled && ¬ checkBusinessHours s day mins

/-- The per-day cap condition `maxReplies > 0 && messageCount >= maxReplies`
(a `null` setting compares as false in JS). -/
def capHit (s : Settings) (messageCount : Int) : Bool :=
  match s.max_replies_per_contact with
  | some maxReplies => decide (0 < maxReplies) && decide (maxReplies ≤ messageCount)
  | none => false

/-- The durable stop-list: `getSetting('stopped_contacts') || []`. -/
def stoppedList (s : Settings) : List Str :=
  s.stopped_contacts.getD []

/-- `botSettingsService.shouldReplyToContact(contact, messageCount)`.
The JS caller in `handleIncomingMessage` omits `messageCount`, whose default
is 0; the embedding makes the argument explicit.  The checks run in the
source order: auto-reply flag, business hours, per-day cap, stop-list, group. -/
def shouldReplyToContact (s : Settings) (day mins : Int) (contact : ContactRec)
    (messageCount : Int) : ShouldReply :=
  if ¬ isAutoReplyEnabled s then
    ⟨false, some reasonAutoReplyDisabled⟩
  else if bhFail s day mins then
    ⟨false, some reasonOutsideBusinessHours⟩
  else if capHit s messageCount then
    ⟨false, some reasonMaxReplies⟩
  else if contact.id ∈ stoppedList s then
    ⟨false, some reasonStopped⟩
  else if contact.isGroup && ¬ obool s.reply_in_groups then
    ⟨false, some reasonGroupDisabled⟩
  else
    ⟨true, none⟩

/-- `botSettingsService.checkStopKeyword`: whole-token, case-insensitive
equality of the trimmed upper-cased body against some configured keyword. -/
def checkStopKeyword (s : Settings) (messageText : Str) : Bool :=
  let text := trim (upper messageText)
  (s.stop_keywords.getD []).any (fun keyword => text = upper keyword)

/-- `botSettingsService.checkRequireHuman`: case-insensitive substring
containment of some configured keyword. -/
def checkRequireHuman (s : Settings) (messageText : Str) : Bool :=
  let text := upper messageText
  (s.require_human_keywords.getD []).any (fun keyword => includes text (upper keyword))

/-- List transformation performed by `botSettingsService.stopContact`
on the durable `stopped_contacts` setting. -/
def stopContact (l : List Str) (contactId : Str) : List Str :=
  if contactId ∈ l then l else l ++ [contactId]

/-- List transformation performed by `botSettingsService.startContact`. -/
def startContact (l : List Str) (contactId : Str) : List Str :=
  l.filter (fun id => id ≠ contactId)

/-! ### Human behavior simulator (`src/utils/humanBehavior.js`) -/

mutual

/-- Token-accumulating phase of `text.split(/\s+/)`: `acc` is the current
token, reversed. -/
def splitWsTok : List Char → Str → List Str
  | [], acc => [acc.reverse]
  | c :: cs, acc =>
    if wsChar c then acc.reverse :: splitWsSep cs
    else splitWsTok cs (c :: acc)

/-- Separator-consuming phase of `text.split(/\s+/)`: a maximal whitespace
run is one separator; a trailing separator yields a trailing empty token. -/
def splitWsSep : List Char → List Str
  | [] => [[]]
  | c :: cs => if wsChar c then splitWsSep cs else splitWsTok cs [c]

end

/-- JS `text.split(/\s+/)` (used for the word count of the reading time). -/
def jsSplitWs (s : Str) : List Str := splitWsTok s []

/-- The drawn characters-per-minute typing speed:
`Math.floor(Math.random() * (maxSpeed - minSpeed + 1)) + minSpeed`,
with `r` the `Math.random()` draw. -/
def drawTypingSpeed (minSpeed maxSpeed : Int) (r : ℚ) : Int :=
  ⌊r * ((maxSpeed : ℚ) - (minSpeed : ℚ) + 1)⌋ + minSpeed

/-- `calculateTypingTime(text)`, with the two random draws (speed and jitter)
passed explicitly.  Numbers are modelled as rationals. -/
def calculateTypingTime (minSpeed maxSpeed : Int) (rSpeed rJitter : ℚ)
    (text : Str) : ℚ :=
  let typingSpeed : Int := drawTypingSpeed minSpeed maxSpeed rSpeed
  let timePerChar : ℚ := 60 / (typingSpeed : ℚ) * 1000
  let baseTime : ℚ := (text.length : ℚ) * timePerChar
  let variance : ℚ := baseTime * (2 / 10)
  let finalTime : ℚ := baseTime + (rJitter * variance * 2 - variance)
  max 1000 (min finalTime 10000)

/-- `calculateReadingTime(text)`, with the jitter draw passed explicitly. -/
def calculateReadingTime (rJitter : ℚ) (text : Str) : ℚ :=
  let words : ℚ := ((jsSplitWs text).length : ℚ)
  let readingTime : ℚ := words / 225 * 60 * 1000
  let variance : ℚ := readingTime * (3 / 10)
  let finalTime : ℚ := readingTime + (rJitter * variance * 2 - variance)
  max 500 (min finalTime 5000)

/-- Sentence terminators of the chunker's regex `[^.!?]+[.!?]+`. -/
def isTerm (c : Char) : Bool := c = '.' || c = '!' || c = '?'

mutual

/-- Global-match scan of `/[^.!?]+[.!?]+/g`, phase collecting `[^.!?]+`:
`acc` is the non-terminator run matched so far, reversed.  A trailing run
with no terminator matches nothing and is dropped, as in JS. -/
def sentencesScan : List Char → Str → List Str
  | [], _ => []
  | c :: cs, acc =>
    if isTerm c then
      if acc = [] then sentencesScan cs []
      else sentencesTerm cs (c :: acc)
    else sentencesScan cs (c :: acc)

/-- Phase collecting the greedy `[.!?]+` tail of the current match;
`acc` holds the whole match so far, reversed. -/
def sentencesTerm : List Char → Str → List Str
  | [], acc => [acc.reverse]
  | c :: cs, acc =>
    if isTerm c then sentencesTerm cs (c :: acc)
    else acc.reverse :: sentencesScan cs [c]

end

/-- `text.match(/[^.!?]+[.!?]+/g)`, as the (possibly empty) list of matches. -/
def jsSentences (s : Str) : List Str := sentencesScan s []

/-- `text.match(/[^.!?]+[.!?]+/g) || [text]` (JS `match` is null, hence
falsy, exactly when there is no match). -/
def jsSentencesOr (s : Str) : List Str :=
  match jsSentences s with
  | [] => [s]
  | l => l

/-- The sentence-packing loop of `chunkMessage`: greedily extend
`currentChunk` while the concatenation stays within `maxLength`, otherwise
push `currentChunk.trim()` (when non-empty) and restart from the sentence. -/
def chunkLoop (maxLength : Nat) : List Str → Str → List Str
  | [], currentChunk =>
    if currentChunk = [] then [] else [trim currentChunk]
  | sentence :: rest, currentChunk =>
    if (currentChunk ++ sentence).length ≤ maxLength then
      chunkLoop maxLength rest (currentChunk ++ sentence)
    else if currentChunk = [] then
      chunkLoop maxLength rest sentence
    else
      trim currentChunk :: chunkLoop maxLength rest sentence

/-- `chunkMessage(text, maxLength)` from `src/utils/humanBehavior.js`. -/
def chunkMessage (text : Str) (maxLength : Nat) : List Str :=
  if text.length ≤ maxLength then [text]
  else chunkLoop maxLength (jsSentencesOr text) []

/-! ### Inbound decision pipeline (`handleIncomingMessage` of
`src/services/whatsapp.js`)

Fallible external calls are the transport operations (`message.getChat()`
and `chat.sendMessage(...)`) and the AI completion
(`aiService.generateResponse`).  Transport failures are injected by a plan
mapping the index of each transport call on the taken path to an optional
error; the AI result is an `Except`.  `saveMessage` / `saveAIMessage` and
the settings reads swallow their own errors in the source (try/catch around
the body), so they are modelled as infallible store effects; `simulateTyping`
also catches internally and performs no store effect. -/

/-- Errors raised by external collaborators. -/
abbrev Err := Str

/-- Observable side effects of one `handleIncomingMessage` invocation,
in execution order. -/
inductive Effect
  /-- The inbound message row appended by `saveMessage`. -/
  | savedInbound : Effect
  /-- A successful `chat.sendMessage(body)`. -/
  | sent : Str → Effect
  /-- The bot-authored `Message` row appended by `saveAIMessage(contactId,
  content, ...)`; the last field is the row's `isAiGenerated` value. -/
  | savedBotMessage : Str → Str → Bool → Effect
  /-- The durable `stopped_contacts` write performed by `stopContact`. -/
  | stopListWrite : Str → Effect
  /-- An invocation of `aiService.generateResponse(contactId, body, ...)`. -/
  | aiCall : Str → Str → Effect
deriving DecidableEq, Repr

/-- Terminal outcome of one `handleIncomingMessage` invocation (the source
returns from distinct points; the constructors name those return sites). -/
inductive Outcome
  | notActionable
  | autoReplyDisabled
  | outsideBusinessHours
  | skipped : Option Str → Outcome
  | stoppedAck
  | humanAck
  | emptyAiResponse
  | replied
  /-- The outer `catch`: the error was logged and swallowed. -/
  | caughtError : Err → Outcome
deriving DecidableEq, Repr

/-- The inbound message event, as consumed by the pipeline. -/
structure MsgEvent where
  fromMe : Bool
  isStatus : Bool
  body : Str
  from_ : Str

/-- One invocation's environment: the settings snapshot, clock reading,
the (already upserted) contact, the event, the AI completion result, and
the transport failure plan (index of transport call on the taken path ↦
optional thrown error). -/
structure Env where
  settings : Settings
  day : Int
  mins : Int
  contact : ContactRec
  msg : MsgEvent
  aiResult : Except Err Str
  transportPlan : Nat → Option Err

/-- `simulateNaturalFlow`: send each chunk in order (typing simulation
swallows its own errors); a failing send aborts the remaining chunks but
keeps the already-sent prefix.  `k` is the transport-call index of the
first send. -/
def sendChunks (plan : Nat → Option Err) : Nat → List Str →
    Except Err Unit × List Effect
  | _, [] => (Except.ok (), [])
  | k, chunk :: rest =>
    match plan k with
    | some e => (Except.error e, [])
    | none =>
      let (r, tr) := sendChunks plan (k + 1) rest
      (r, Effect.sent chunk :: tr)

/-- The body of `handleIncomingMessage` (everything inside the `try`),
returning the outcome or the first uncaught exception, together with the
effects performed up to that point. -/
def handleBody (env : Env) : Except Err Outcome × List Effect :=
  if env.msg.fromMe || env.msg.isStatus then (Except.ok Outcome.notActionable, [])
  else
    let tr0 : List Effect := [Effect.savedInbound]
    if ¬ isAutoReplyEnabled env.settings then (Except.ok Outcome.autoReplyDisabled, tr0)
    else if bhFail env.settings env.day env.mins then
      if obool env.settings.out_of_office_enabled then
        let oooMessage := env.settings.out_of_office_message.getD []
        match env.transportPlan 0 with
        | some e => (Except.error e, tr0)
        | none =>
          match env.transportPlan 1 with
          | some e => (Except.error e, tr0)
          | none =>
            (Except.ok Outcome.outsideBusinessHours,
             tr0 ++ [Effect.sent oooMessage,
                     Effect.savedBotMessage env.contact.id oooMessage true])
      else (Except.ok Outcome.outsideBusinessHours, tr0)
    else
      let shouldReply := shouldReplyToContact env.settings env.day env.mins env.contact 0
      if ¬ shouldReply.should then (Except.ok (Outcome.skipped shouldReply.reason), tr0)
      else if checkStopKeyword env.settings env.msg.body then
        let stopMessage := env.settings.stop_message.getD []
        match env.transportPlan 0 with
        | some e => (Except.error e, tr0)
        | none =>
          match env.transportPlan 1 with
          | some e => (Except.error e, tr0)
          | none =>
            let tr1 := tr0 ++ [Effect.sent stopMessage,
                               Effect.savedBotMessage env.contact.id stopMessage true]
            let tr2 := if env.contact.id ∈ stoppedList env.settings
                       then tr1 else tr1 ++ [Effect.stopListWrite env.contact.id]
            (Except.ok Outcome.stoppedAck, tr2)
      else if checkRequireHuman env.settings env.msg.body then
        let humanMessage := env.settings.require_human_message.getD []
        match env.transportPlan 0 with
        | some e => (Except.error e, tr0)
        | none =>
          match env.transportPlan 1 with
          | some e => (Except.error e, tr0)
          | none =>
            let tr1 := tr0 ++ [Effect.sent humanMessage,
                               Effect.savedBotMessage env.contact.id humanMessage true]
            let tr2 := if env.contact.id ∈ stoppedList env.settings
                       then tr1 else tr1 ++ [Effect.stopListWrite env.contact.id]
            (Except.ok Outcome.humanAck, tr2)
      else
        let tr1 := tr0 ++ [Effect.aiCall env.contact.id env.msg.body]
        match env.aiResult with
        | Except.error e => (Except.error e, tr1)
        | Except.ok aiResponse =>
          if (trim aiResponse).length = 0 then (Except.ok Outcome.emptyAiResponse, tr1)
          else
            match env.transportPlan 0 with
            | some e => (Except.error e, tr1)
            | none =>
              let messageChunks := chunkMessage aiResponse 500
              if messageChunks.length = 1 then
                match env.transportPlan 1 with
                | some e => (Except.error e, tr1)
                | none =>
                  (Except.ok Outcome.replied,
                   tr1 ++ [Effect.sent aiResponse,
                           Effect.savedBotMessage env.contact.id aiResponse true])
              else
                match sendChunks env.transportPlan 1 messageChunks with
                | (Except.error e, trS) => (Except.error e, tr1 ++ trS)
                | (Except.ok _, trS) =>
                  (Except.ok Outcome.replied,
                   tr1 ++ trS ++ [Effect.savedBotMessage env.contact.id aiResponse true])

/-- `handleIncomingMessage`: the `try` body wrapped in the outer catch,
which logs and swallows any exception.  Returns the terminal outcome and
the effect trace. -/
def handleIncomingMessage (env : Env) : Outcome × List Effect :=
  match handleBody env with
  | (Except.ok o, tr) => (o, tr)
  | (Except.error e, tr) => (Outcome.caughtError e, tr)

/-! ### AI context composer (`src/ai/service.js`) -/

/-- The fields of the active `AIConfig` row consulted by
`buildContextualPrompt` (`config.settings?.useKnowledgeBase` and
`config.settings?.useConversationHistory` flattened to booleans). -/
structure AIConfigRec where
  systemPrompt : Option Str
  useKnowledgeBase : Bool
  useConversationHistory : Bool

/-- A `Knowledge` row. -/
structure KnowledgeEntry where
  title : Str
  content : Str
  category : Str
  tags : List Str
  isActive : Bool
  updatedAt : Int

/-- A stored `Message` row, restricted to the attributes the composer reads. -/
structure MessageRow where
  contactId : Str
  body : Str
  isFromMe : Bool
  timestamp : Int

/-- JS truthiness of an optional string (null and the empty string are falsy). -/
def struthy (o : Option Str) : Bool :=
  match o with
  | some s => s ≠ []
  | none => false

/-- Insert into a list sorted descending by `key` (models `ORDER BY key DESC`). -/
def insertByDesc {α : Type} (key : α → Int) (x : α) : List α → List α
  | [] => [x]
  | y :: ys => if key y < key x then x :: y :: ys else y :: insertByDesc key x ys

/-- Sort descending by `key`. -/
def sortByDesc {α : Type} (key : α → Int) : List α → List α
  | [] => []
  | x :: xs => insertByDesc key x (sortByDesc key xs)

/-- Match predicate of the knowledge query: row active, and some keyword is
a case-insensitive substring of the title or content, or an exact tag
(`Op.iLike '%kw%'` / `Op.contains [kw]`). -/
def knowledgeMatches (keywords : List Str) (k : KnowledgeEntry) : Bool :=
  k.isActive && keywords.any (fun kw =>
    includes (lower k.title) kw || includes (lower k.content) kw ||
    k.tags.contains kw)

/-- `getRelevantKnowledge(prompt, limit)` over a knowledge-base snapshot:
keywords are the space-separated words of the lower-cased prompt longer
than 3 characters; matching rows, most recently updated first, capped at
`limit`; projected to `{title, content, category}`. -/
def getRelevantKnowledge (kb : List KnowledgeEntry) (prompt : Str)
    (limit : Nat) : List (Str × Str × Str) :=
  let keywords := ((lower prompt).splitOn ' ').filter (fun word => 3 < word.length)
  if keywords = [] then []
  else
    (((sortByDesc KnowledgeEntry.updatedAt
        (kb.filter (knowledgeMatches keywords))).take limit).map
      (fun k => (k.title, k.content, k.category)))

/-- `getConversationHistory(contactId, limit)` over a message-store
snapshot: the `limit` most recent rows of the contact, reversed to
chronological order, each projected to a role/content pair. -/
def getConversationHistory (rows : List MessageRow) (contactId : Str)
    (limit : Nat) : List (Str × Str) :=
  (((sortByDesc MessageRow.timestamp
      (rows.filter (fun m => m.contactId = contactId))).take limit).reverse).map
    (fun m => ((if m.isFromMe then "assistant".toList else "user".toList), m.body))

/-- Rendering of one knowledge entry inside the prompt. -/
def renderKnowledge (k : Str × Str × Str) : Str :=
  "[".toList ++ k.2.2 ++ "] ".toList ++ k.1 ++ ":\n".toList ++ k.2.1 ++ "\n\n".toList

/-- Rendering of one history message inside the prompt. -/
def renderHistory (m : Str × Str) : Str :=
  (if m.1 = "user".toList then "Customer".toList else "You (AI Assistant)".toList)
    ++ ": ".toList ++ m.2 ++ "\n".toList

/-- Section 1 of the prompt: the system instruction (when truthy). -/
def promptSystemSection (config : AIConfigRec) : Str :=
  if struthy config.systemPrompt then
    "=== SYSTEM INSTRUCTIONS ===\n".toList ++ config.systemPrompt.getD []
      ++ "\n\n".toList
  else []

/-- Section 2 of the prompt: up to 3 relevant knowledge entries (when the
knowledge base is enabled and the query matched anything). -/
def promptKnowledgeSection (config : AIConfigRec) (kb : List KnowledgeEntry)
    (prompt : Str) : Str :=
  if config.useKnowledgeBase then
    if getRelevantKnowledge kb prompt 3 ≠ [] then
      "=== KNOWLEDGE BASE (Gunakan info ini untuk menjawab) ===\n".toList
        ++ ((getRelevantKnowledge kb prompt 3).map renderKnowledge).flatten
    else []
  else []

/-- Section 3 of the prompt: up to 10 most recent history messages (when
history is enabled and the contact id is truthy). -/
def promptHistorySection (config : AIConfigRec) (rows : List MessageRow)
    (contactId : Option Str) : Str :=
  if config.useConversationHistory && struthy contactId then
    if getConversationHistory rows (contactId.getD []) 10 ≠ [] then
      "=== RIWAYAT PERCAKAPAN (Context untuk jawaban) ===\n".toList
        ++ ((getConversationHistory rows (contactId.getD []) 10).map
              renderHistory).flatten ++ "\n".toList
    else []
  else []

/-- Section 4 of the prompt: the contact name and current local time. -/
def promptContextSection (contactName : Option Str) (nowStr : Str) : Str :=
  if struthy contactName then
    "=== KONTEKS SAAT INI ===\n".toList ++ "Nama Customer: ".toList
      ++ contactName.getD [] ++ "\n".toList ++ "Waktu: ".toList ++ nowStr
      ++ "\n\n".toList
  else []

/-- `buildContextualPrompt(config, prompt, contactName, contactId)`, with
the knowledge-base and message-store snapshots and the formatted current
time passed explicitly.  The knowledge and history sections are rendered
from `getRelevantKnowledge kb prompt 3` and
`getConversationHistory rows contactId 10` exactly as in the source. -/
def buildContextualPrompt (config : AIConfigRec) (kb : List KnowledgeEntry)
    (rows : List MessageRow) (prompt : Str) (contactName : Option Str)
    (contactId : Option Str) (nowStr : Str) : Str :=
  promptSystemSection config
    ++ promptKnowledgeSection config kb prompt
    ++ promptHistorySection config rows contactId
    ++ promptContextSection contactName nowStr
    ++ "=== PESAN CUSTOMER SEKARANG ===\n".toList ++ prompt ++ "\n\n".toList
    ++ "=== TUGAS ANDA ===\nBerikan jawaban yang relevan, personal, dan sesuai konteks percakapan. Gunakan riwayat chat dan knowledge base yang tersedia.\n\n".toList
    ++ "JAWABAN ANDA:\n".toList

/-- Recognizer for bot-authored `Message` rows in an effect trace. -/
def isSavedBot : Effect → Bool
  | Effect.savedBotMessage _ _ _ => true
  | _ => false

/-! ### Concrete fixtures for counterexamples and witnesses -/

/-- A plain (non-group) contact. -/
def exContact : ContactRec := ⟨"c1".toList, false, "Budi".toList⟩

/-- A plain inbound text event. -/
def exMsgHello : MsgEvent := ⟨false, false, "hello".toList, "628@c.us".toList⟩

/-- Settings with a reply cap of 5 and the contact already stop-listed. -/
def exSettingsCap : Settings :=
  { emptySettings with
    max_replies_per_contact := some 5
    stopped_contacts := some ["c1".toList] }

/-- The configured out-of-office text of the fixtures. -/
def exOoo : Str := "Kami sedang di luar jam kerja.".toList

/-- Settings with business hours on, the clock outside them (fixture day 0
is not a default business day) and out-of-office sending enabled. -/
def exSettingsOOO : Settings :=
  { emptySettings with
    business_hours_enabled := some true
    out_of_office_enabled := some true
    out_of_office_message := some exOoo }

/-- Out-of-office environment: Sunday (day 0), reliable transport. -/
def exEnvOOO : Env :=
  ⟨exSettingsOOO, 0, 600, exContact, exMsgHello,
   Except.ok ("resp".toList), fun _ => none⟩

/-- The configured stop acknowledgment of the fixtures. -/
def exStopMsg : Str := "Anda telah berhenti.".toList

/-- Settings with a stop keyword and stop acknowledgment configured. -/
def exSettingsStop : Settings :=
  { emptySettings with
    stop_keywords := some ["STOP".toList]
    stop_message := some exStopMsg }

/-- Environment whose inbound body is the stop keyword (case-insensitive). -/
def exEnvStop : Env :=
  ⟨exSettingsStop, 1, 600, exContact,
   ⟨false, false, "stop".toList, "628@c.us".toList⟩,
   Except.ok ("resp".toList), fun _ => none⟩

/-- The configured handoff acknowledgment of the fixtures. -/
def exHumanMsg : Str := "Menghubungkan Anda dengan tim kami.".toList

/-- Settings with a needs-human keyword and acknowledgment configured. -/
def exSettingsHuman : Settings :=
  { emptySettings with
    require_human_keywords := some ["HUMAN".toList]
    require_human_message := some exHumanMsg }

/-- Environment whose inbound body contains the needs-human keyword. -/
def exEnvHuman : Env :=
  ⟨exSettingsHuman, 1, 600, exContact,
   ⟨false, false, "need a human please".toList, "628@c.us".toList⟩,
   Except.ok ("resp".toList), fun _ => none⟩

/-- A 602-character AI response that chunks into two 301-character parts. -/
def exBigResp : Str :=
  List.replicate 300 'a' ++ ('.' :: (List.replicate 300 'b' ++ ['.']))

/-- First chunk of `exBigResp` under the pipeline's 500-character limit. -/
def exChunkA : Str := List.replicate 300 'a' ++ ['.']

/-- Second chunk of `exBigResp`. -/
def exChunkB : Str := List.replicate 300 'b' ++ ['.']

/-- Environment in which the transport fails on the second reply chunk
(transport call 0 is `getChat`, 1 the first send, 2 the second send). -/
def exEnvPartialSend : Env :=
  ⟨emptySettings, 1, 600, exContact, exMsgHello,
   Except.ok exBigResp,
   fun k => if k = 2 then some ("send-failed".toList) else none⟩

/-- Environment in which the AI completion call throws. -/
def exEnvAiFail : Env :=
  ⟨emptySettings, 1, 600, exContact, exMsgHello,
   Except.error ("completion-error".toList), fun _ => none⟩

/-- Environment whose contact is on the durable stop-list. -/
def exEnvStopped : Env :=
  ⟨{ emptySettings with stopped_contacts := some ["c1".toList] },
   1, 600, exContact, exMsgHello, Except.ok ("resp".toList), fun _ => none⟩

/-- Settings with auto-reply explicitly disabled. -/
def exSettingsDisabled : Settings :=
  { emptySettings with auto_reply_enabled := some false }

/-- Stop-list fixture for the round-trip witness. -/
def exRoundTripSettings : Settings :=
  { emptySettings with
    stopped_contacts :=
      some (startContact (stopContact ["x".toList] ("c1".toList)) ("c1".toList)) }

/-! ### Helper lemmas -/

/-- The non-whitespace characters of a string, in order. -/
def nonWs (s : Str) : Str := s.filter (fun c => !wsChar c)

theorem length_dropWhile_le (p : Char → Bool) (l : List Char) :
    (l.dropWhile p).length ≤ l.length := by
  induction l with
  | nil => simp [List.dropWhile]
  | cons c t ih =>
    by_cases h : p c
    · simp only [List.dropWhile, h]
      exact le_trans ih (by simp)
    · simp [List.dropWhile, h]

theorem trim_length_le (s : Str) : (trim s).length ≤ s.length := by
  unfold trim
  calc ((s.dropWhile wsChar).reverse.dropWhile wsChar).reverse.length
      = ((s.dropWhile wsChar).reverse.dropWhile wsChar).length := by
        rw [List.length_reverse]
    _ ≤ (s.dropWhile wsChar).reverse.length := length_dropWhile_le _ _
    _ = (s.dropWhile wsChar).length := by rw [List.length_reverse]
    _ ≤ s.length := length_dropWhile_le _ _

theorem nonWs_dropWhile (l : List Char) :
    nonWs (l.dropWhile wsChar) = nonWs l := by
  induction l with
  | nil => rfl
  | cons c t ih =>
    by_cases h : wsChar c
    · simpa [nonWs, List.dropWhile, List.filter, h] using ih
    · simp [nonWs, List.dropWhile, List.filter, h]

theorem nonWs_reverse (l : List Char) : nonWs l.reverse = (nonWs l).reverse := by
  simp [nonWs, List.filter_reverse]

theorem nonWs_trim (s : Str) : nonWs (trim s) = nonWs s := by
  unfold trim
  rw [nonWs_reverse, nonWs_dropWhile, nonWs_reverse, List.reverse_reverse,
    nonWs_dropWhile]

theorem nonWs_append (a b : Str) : nonWs (a ++ b) = nonWs a ++ nonWs b := by
  simp [nonWs]

/-- The chunk-packing loop only ever discards whitespace (by trimming at
chunk boundaries): the non-whitespace characters of its output are those of
the pending chunk followed by those of the remaining sentences, in order. -/
theorem chunkLoop_nonWs (L : Nat) (S : List Str) :
    ∀ cur : Str,
      nonWs (chunkLoop L S cur).flatten = nonWs cur ++ nonWs S.flatten := by
  induction S with
  | nil =>
    intro cur
    by_cases h : cur = []
    · simp [chunkLoop, h, nonWs]
    · simp only [chunkLoop, if_neg h, List.flatten_cons, List.flatten_nil,
        List.append_nil, nonWs_trim]
      simp [nonWs]
  | cons s rest ih =>
    intro cur
    by_cases h1 : (cur ++ s).length ≤ L
    · simp only [chunkLoop, if_pos h1]
      rw [ih (cur ++ s), nonWs_append, List.flatten_cons, nonWs_append,
        List.append_assoc]
    · by_cases h2 : cur = []
      · simp only [chunkLoop, if_neg h1, if_pos h2]
        rw [ih s, List.flatten_cons, nonWs_append, h2]
        simp [nonWs]
      · simp only [chunkLoop, if_neg h1, if_neg h2]
        rw [List.flatten_cons, nonWs_append, nonWs_trim, ih s,
          List.flatten_cons, nonWs_append]

/-- Every chunk the loop emits is within the limit, or is the trim of a
single over-long sentence from the original sentence list. -/
theorem chunkLoop_mem (L : Nat) (S₀ : List Str) (S : List Str) :
    ∀ cur : Str, (∀ s ∈ S, s ∈ S₀) →
      (cur.length ≤ L ∨ ∃ s ∈ S₀, cur = s) →
      ∀ c ∈ chunkLoop L S cur,
        c.length ≤ L ∨ ∃ s ∈ S₀, L < s.length ∧ c = trim s := by
  induction S with
  | nil =>
    intro cur _ hcur c hc
    by_cases h : cur = []
    · simp [chunkLoop, h] at hc
    · simp [chunkLoop, h] at hc
      subst hc
      rcases hcur with hlen | ⟨s, hs, hceq⟩
      · exact Or.inl (le_trans (trim_length_le cur) hlen)
      · by_cases hsl : s.length ≤ L
        · exact Or.inl (hceq ▸ le_trans (trim_length_le s) hsl)
        · exact Or.inr ⟨s, hs, by omega, by rw [hceq]⟩
  | cons s rest ih =>
    intro cur hsub hcur c hc
    have hsub' : ∀ t ∈ rest, t ∈ S₀ := fun t ht => hsub t (by simp [ht])
    have hsS₀ : s ∈ S₀ := hsub s (by simp)
    by_cases h1 : (cur ++ s).length ≤ L
    · rw [chunkLoop, if_pos h1] at hc
      exact ih _ hsub' (Or.inl h1) c hc
    · by_cases h2 : cur = []
      · rw [chunkLoop, if_neg h1, if_pos h2] at hc
        exact ih _ hsub' (Or.inr ⟨s, hsS₀, rfl⟩) c hc
      · rw [chunkLoop, if_neg h1, if_neg h2] at hc
        rcases List.mem_cons.mp hc with rfl | hc'
        · rcases hcur with hlen | ⟨t, ht, hceq⟩
          · exact Or.inl (le_trans (trim_length_le cur) hlen)
          · by_cases htl : t.length ≤ L
            · exact Or.inl (hceq ▸ le_trans (trim_length_le t) htl)
            · exact Or.inr ⟨t, ht, by omega, by rw [hceq]⟩
        · exact ih _ hsub' (Or.inr ⟨s, hsS₀, rfl⟩) c hc'

/-- The loop emits at least one chunk when it starts with a pending chunk
or a non-empty list of non-empty sentences. -/
theorem chunkLoop_ne_nil (L : Nat) (S : List Str) :
    ∀ cur : Str, (cur ≠ [] ∨ (S ≠ [] ∧ ∀ s ∈ S, s ≠ [])) →
      chunkLoop L S cur ≠ [] := by
  induction S with
  | nil =>
    intro cur h
    rcases h with h | ⟨h, _⟩
    · simp [chunkLoop, h]
    · exact absurd rfl h
  | cons s rest ih =>
    intro cur h
    have hs : cur ≠ [] ∨ s ≠ [] := by
      rcases h with h | ⟨_, h2⟩
      · exact Or.inl h
      · exact Or.inr (h2 s (by simp))
    by_cases h1 : (cur ++ s).length ≤ L
    · rw [chunkLoop, if_pos h1]
      refine ih _ (Or.inl ?_)
      rcases hs with h' | h' <;> simp [h']
    · by_cases h2 : cur = []
      · rw [chunkLoop, if_neg h1, if_pos h2]
        refine ih _ (Or.inl ?_)
        rcases hs with h' | h'
        · exact absurd h2 h'
        · exact h'
      · rw [chunkLoop, if_neg h1, if_neg h2]
        simp

/-- Every match of the sentence regex is non-empty (joint invariant of the
two scanning phases). -/
theorem sentences_mem_ne_nil (cs : List Char) :
    ∀ acc : Str,
      (∀ m ∈ sentencesScan cs acc, m ≠ []) ∧
      (acc ≠ [] → ∀ m ∈ sentencesTerm cs acc, m ≠ []) := by
  induction cs with
  | nil =>
    intro acc
    constructor
    · intro m hm; simp [sentencesScan] at hm
    · intro hacc m hm
      simp [sentencesTerm] at hm
      subst hm
      simpa using hacc
  | cons c t ih =>
    intro acc
    constructor
    · intro m hm
      by_cases hterm : isTerm c
      · by_cases hacc : acc = []
        · rw [sentencesScan, if_pos hterm, if_pos hacc] at hm
          exact (ih []).1 m hm
        · rw [sentencesScan, if_pos hterm, if_neg hacc] at hm
          exact (ih (c :: acc)).2 (by simp) m hm
      · rw [sentencesScan, if_neg hterm] at hm
        exact (ih (c :: acc)).1 m hm
    · intro hacc m hm
      by_cases hterm : isTerm c
      · rw [sentencesTerm, if_pos hterm] at hm
        exact (ih (c :: acc)).2 (by simp) m hm
      · rw [sentencesTerm, if_neg hterm] at hm
        rcases List.mem_cons.mp hm with rfl | hm'
        · simpa using hacc
        · exact (ih [c]).1 m hm'

theorem jsSentencesOr_ne_nil (t : Str) : jsSentencesOr t ≠ [] := by
  unfold jsSentencesOr
  split <;> simp_all

theorem jsSentencesOr_mem_ne_nil (t : Str) (ht : t ≠ []) :
    ∀ m ∈ jsSentencesOr t, m ≠ [] := by
  intro m hm
  cases h : jsSentences t with
  | nil =>
    simp [jsSentencesOr, h] at hm
    subst hm; exact ht
  | cons x xs =>
    simp only [jsSentencesOr, h] at hm
    have hm' : m ∈ jsSentences t := by rw [h]; exact hm
    exact (sentences_mem_ne_nil t []).1 m hm'

/-- `chunkMessage` never returns the empty list on non-empty input. -/
theorem chunkMessage_ne_nil (t : Str) (L : Nat) (ht : t ≠ []) :
    chunkMessage t L ≠ [] := by
  unfold chunkMessage
  split
  · simp
  · exact chunkLoop_ne_nil L (jsSentencesOr t) []
      (Or.inr ⟨jsSentencesOr_ne_nil t, jsSentencesOr_mem_ne_nil t ht⟩)

/-- Branch equation: auto-reply disabled. -/
theorem shouldReply_auto (s : Settings) (day mins : Int) (c : ContactRec)
    (mc : Int) (h : isAutoReplyEnabled s = false) :
    shouldReplyToContact s day mins c mc = ⟨false, some reasonAutoReplyDisabled⟩ := by
  simp [shouldReplyToContact, h]

/-- Branch equation: outside business hours. -/
theorem shouldReply_bh (s : Settings) (day mins : Int) (c : ContactRec)
    (mc : Int) (h1 : isAutoReplyEnabled s = true) (h2 : bhFail s day mins = true) :
    shouldReplyToContact s day mins c mc = ⟨false, some reasonOutsideBusinessHours⟩ := by
  simp [shouldReplyToContact, h1, h2]

/-- Branch equation: per-day cap reached. -/
theorem shouldReply_cap (s : Settings) (day mins : Int) (c : ContactRec)
    (mc : Int) (h1 : isAutoReplyEnabled s = true) (h2 : bhFail s day mins = false)
    (h3 : capHit s mc = true) :
    shouldReplyToContact s day mins c mc = ⟨false, some reasonMaxReplies⟩ := by
  simp [shouldReplyToContact, h1, h2, h3]

/-- Branch equation: contact stop-listed. -/
theorem shouldReply_stop (s : Settings) (day mins : Int) (c : ContactRec)
    (mc : Int) (h1 : isAutoReplyEnabled s = true) (h2 : bhFail s day mins = false)
    (h3 : capHit s mc = false) (h4 : c.id ∈ stoppedList s) :
    shouldReplyToContact s day mins c mc = ⟨false, some reasonStopped⟩ := by
  simp [shouldReplyToContact, h1, h2, h3, h4]

/-- Branch equation: group replies disabled. -/
theorem shouldReply_group (s : Settings) (day mins : Int) (c : ContactRec)
    (mc : Int) (h1 : isAutoReplyEnabled s = true) (h2 : bhFail s day mins = false)
    (h3 : capHit s mc = false) (h4 : c.id ∉ stoppedList s)
    (h5 : (c.isGroup && ¬ obool s.reply_in_groups) = true) :
    shouldReplyToContact s day mins c mc = ⟨false, some reasonGroupDisabled⟩ := by
  simp only [shouldReplyToContact, h1, h2, h3, h5]
  simp [h4]

/-- Branch equation: all checks pass. -/
theorem shouldReply_ok (s : Settings) (day mins : Int) (c : ContactRec)
    (mc : Int) (h1 : isAutoReplyEnabled s = true) (h2 : bhFail s day mins = false)
    (h3 : capHit s mc = false) (h4 : c.id ∉ stoppedList s)
    (h5 : (c.isGroup && ¬ obool s.reply_in_groups) = false) :
    shouldReplyToContact s day mins c mc = ⟨true, none⟩ := by
  simp only [shouldReplyToContact, h1, h2, h3, h5]
  simp [h4]

theorem trim_nil : trim [] = [] := rfl

/-- With a reliable transport, `simulateNaturalFlow` sends every chunk in
order and succeeds. -/
theorem sendChunks_none (k : Nat) (l : List Str) :
    sendChunks (fun _ => none) k l = (Except.ok (), l.map Effect.sent) := by
  induction l generalizing k with
  | nil => simp [sendChunks]
  | cons c rest ih => simp [sendChunks, ih]

/-- Every effect `simulateNaturalFlow` performs is a send. -/
theorem mem_sendChunks (plan : Nat → Option Err) (k : Nat) (l : List Str)
    (e : Effect) : e ∈ (sendChunks plan k l).2 → ∃ c, e = Effect.sent c := by
  induction l generalizing k with
  | nil => simp [sendChunks]
  | cons c rest ih =>
    simp only [sendChunks]
    match plan k with
    | some err => simp
    | none =>
      intro h
      rcases List.mem_cons.mp h with rfl | h'
      · exact ⟨c, rfl⟩
      · exact ih (k + 1) h'

/-- A non-blank AI response always produces at least one sent chunk when
delivery succeeds. -/
theorem sent_mem_map_chunks (resp : Str) (h : ¬ trim resp = []) :
    ∃ b, Effect.sent b ∈ List.map Effect.sent (chunkMessage resp 500) := by
  have hresp : resp ≠ [] := by
    intro hnil
    rw [hnil] at h
    exact h rfl
  cases hc : chunkMessage resp 500 with
  | nil => exact absurd hc (chunkMessage_ne_nil resp 500 hresp)
  | cons c rest => exact ⟨c, by simp [hc]⟩

/-- A `handleIncomingMessage` outcome of `autoReplyDisabled` means the
auto-reply flag was off. -/
theorem handle_autoReplyDisabled (env : Env) (tr : List Effect)
    (h : handleIncomingMessage env = (Outcome.autoReplyDisabled, tr)) :
    isAutoReplyEnabled env.settings = false := by
  unfold handleIncomingMessage at h
  rcases hb : handleBody env with ⟨res, tr'⟩
  rw [hb] at h
  simp only [handleBody] at hb
  repeat' split at hb
  all_goals (cases hb; simp_all)

/-- A `skipped` outcome carries exactly the reason computed by
`shouldReplyToContact` with `messageCount = 0` (the caller's default). -/
theorem handle_skipped (env : Env) (r : Option Str) (tr : List Effect)
    (h : handleIncomingMessage env = (Outcome.skipped r, tr)) :
    r = (shouldReplyToContact env.settings env.day env.mins env.contact 0).reason
    ∧ (shouldReplyToContact env.settings env.day env.mins env.contact 0).should
        = false := by
  unfold handleIncomingMessage at h
  rcases hb : handleBody env with ⟨res, tr'⟩
  rw [hb] at h
  simp only [handleBody] at hb
  repeat' split at hb
  all_goals (cases hb; simp_all)

/-- The AI completion is only ever invoked after the eligibility check
passed (with `messageCount = 0`). -/
theorem handle_aiCall_mem (env : Env) (cid body : Str)
    (h : Effect.aiCall cid body ∈ (handleIncomingMessage env).2) :
    (shouldReplyToContact env.settings env.day env.mins env.contact 0).should
      = true := by
  unfold handleIncomingMessage at h
  rcases hb : handleBody env with ⟨res, tr⟩
  rw [hb] at h
  simp only [handleBody] at hb
  repeat' split at hb
  all_goals (cases hb; simp_all)

/-- The reason returned by `shouldReplyToContact` for a contact that is not
on the stop-list is never the stop-list reason. -/
theorem shouldReply_reason_ne_stopped (s : Settings) (day mins : Int)
    (c : ContactRec) (mc : Int) (hmem : c.id ∉ stoppedList s) :
    (shouldReplyToContact s day mins c mc).reason ≠ some reasonStopped := by
  rcases hb1 : isAutoReplyEnabled s with _ | _
  · rw [shouldReply_auto s day mins c mc hb1]; decide
  · rcases hb2 : bhFail s day mins with _ | _
    · rcases hb3 : capHit s mc with _ | _
      · rcases hb5 : (c.isGroup && ¬ obool s.reply_in_groups) with _ | _
        · rw [shouldReply_ok s day mins c mc hb1 hb2 hb3 hmem hb5]; decide
        · rw [shouldReply_group s day mins c mc hb1 hb2 hb3 hmem hb5]; decide
      · rw [shouldReply_cap s day mins c mc hb1 hb2 hb3]; decide
    · rw [shouldReply_bh s day mins c mc hb1 hb2]; decide

/-- The per-day cap condition can never fire at a message count of 0
(`maxReplies > 0 && 0 >= maxReplies` is unsatisfiable). -/
theorem capHit_zero (s : Settings) : capHit s 0 = false := by
  cases h : s.max_replies_per_contact with
  | none => simp [capHit, h]
  | some m =>
    simp only [capHit, h, Bool.and_eq_false_iff, decide_eq_false_iff_not]
    omega

/-- When the cap condition is false, the returned reason is never the cap
reason. -/
theorem shouldReply_reason_ne_max (s : Settings) (day mins : Int)
    (c : ContactRec) (mc : Int) (hcap : capHit s mc = false) :
    (shouldReplyToContact s day mins c mc).reason ≠ some reasonMaxReplies := by
  rcases hb1 : isAutoReplyEnabled s with _ | _
  · rw [shouldReply_auto s day mins c mc hb1]; decide
  · rcases hb2 : bhFail s day mins with _ | _
    · by_cases hmem : c.id ∈ stoppedList s
      · rw [shouldReply_stop s day mins c mc hb1 hb2 hcap hmem]; decide
      · rcases hb5 : (c.isGroup && ¬ obool s.reply_in_groups) with _ | _
        · rw [shouldReply_ok s day mins c mc hb1 hb2 hcap hmem hb5]; decide
        · rw [shouldReply_group s day mins c mc hb1 hb2 hcap hmem hb5]; decide
    · rw [shouldReply_bh s day mins c mc hb1 hb2]; decide

/-- A stop-listed contact always fails the eligibility check, at every
message count. -/
theorem shouldReply_should_false_of_stopped (s : Settings) (day mins : Int)
    (c : ContactRec) (mc : Int) (hmem : c.id ∈ stoppedList s) :
    (shouldReplyToContact s day mins c mc).should = false := by
  rcases hb1 : isAutoReplyEnabled s with _ | _
  · rw [shouldReply_auto s day mins c mc hb1]
  · rcases hb2 : bhFail s day mins with _ | _
    · rcases hb3 : capHit s mc with _ | _
      · rw [shouldReply_stop s day mins c mc hb1 hb2 hb3 hmem]
      · rw [shouldReply_cap s day mins c mc hb1 hb2 hb3]
    · rw [shouldReply_bh s day mins c mc hb1 hb2]

/-! ### Claim theorems -/

/-- C6 (counterexample): `chunkMessage` does not reproduce the text's
sentences verbatim.  For `"aa. bb."` with limit 3, the second sentence is
`" bb."` but the chunks are `["aa.", "bb."]` — the trailing `trim()` of each
chunk drops the sentence's leading whitespace, so the concatenation of the
chunks differs from the concatenation of the sentences, and the sentence
`" bb."` appears in no chunk. -/
theorem chunkMessage_trim_cex :
    jsSentencesOr ("aa. bb.".toList) = ["aa.".toList, " bb.".toList]
    ∧ chunkMessage ("aa. bb.".toList) 3 = ["aa.".toList, "bb.".toList]
    ∧ (chunkMessage ("aa. bb.".toList) 3).flatten
        ≠ (jsSentencesOr ("aa. bb.".toList)).flatten
    ∧ (" bb.".toList) ∉ chunkMessage ("aa. bb.".toList) 3 := by
  decide

/-- C6 (amended): a text within the limit is returned as a single unit;
for longer texts, chunking preserves the sentences' non-whitespace
characters in their original order (whitespace may be trimmed at chunk
boundaries); every chunk is within the limit unless it is the trim of a
single sentence that alone exceeds the limit; and the result is never
empty for non-empty input. -/
theorem chunkMessage_spec (text : Str) (maxLength : Nat) :
    (text.length ≤ maxLength → chunkMessage text maxLength = [text])
    ∧ (maxLength < text.length →
        nonWs (chunkMessage text maxLength).flatten
          = nonWs (jsSentencesOr text).flatten)
    ∧ (∀ c ∈ chunkMessage text maxLength,
        c.length ≤ maxLength ∨
          ∃ s ∈ jsSentencesOr text, maxLength < s.length ∧ c = trim s)
    ∧ (text ≠ [] → chunkMessage text maxLength ≠ []) := by
  refine ⟨?_, ?_, ?_, ?_⟩
  · intro h
    simp [chunkMessage, h]
  · intro h
    rw [chunkMessage, if_neg (by omega), chunkLoop_nonWs]
    simp [nonWs]
  · intro c hc
    by_cases h : text.length ≤ maxLength
    · rw [chunkMessage, if_pos h] at hc
      simp only [List.mem_singleton] at hc
      subst hc
      exact Or.inl h
    · rw [chunkMessage, if_neg h] at hc
      exact chunkLoop_mem maxLength (jsSentencesOr text) (jsSentencesOr text)
        [] (fun s hs => hs) (Or.inl (by simp)) c hc
  · exact chunkMessage_ne_nil text maxLength

/-- C6 (witness): the amended theorem applied to concrete inputs. -/
theorem chunkMessage_spec_witness :
    chunkMessage ("Hi".toList) 500 = ["Hi".toList]
    ∧ nonWs (chunkMessage ("Hi. You.".toList) 4).flatten
        = nonWs (jsSentencesOr ("Hi. You.".toList)).flatten
    ∧ chunkMessage ("Hi. You.".toList) 4 ≠ [] :=
  ⟨(chunkMessage_spec ("Hi".toList) 500).1 (by decide),
   (chunkMessage_spec ("Hi. You.".toList) 4).2.1 (by decide),
   (chunkMessage_spec ("Hi. You.".toList) 4).2.2.2 (by decide)⟩

/-- C7: `calculateTypingTime` is clamped into [1000, 10000] ms and
`calculateReadingTime` into [500, 5000] ms, for every text and every random
draw.  The positivity hypothesis on the drawn typing speed records that the
JS computation is division-by-zero free there (with the default 30–80
chars/min configuration every draw is positive), so the rational model is
faithful. -/
theorem typingReadingBounds (minSpeed maxSpeed : Int) (rSpeed rJitter rRead : ℚ)
    (text : Str) (hspeed : 0 < drawTypingSpeed minSpeed maxSpeed rSpeed) :
    (1000 ≤ calculateTypingTime minSpeed maxSpeed rSpeed rJitter text
      ∧ calculateTypingTime minSpeed maxSpeed rSpeed rJitter text ≤ 10000)
    ∧ (500 ≤ calculateReadingTime rRead text
      ∧ calculateReadingTime rRead text ≤ 5000) := by
  unfold calculateTypingTime calculateReadingTime
  refine ⟨⟨le_max_left _ _, ?_⟩, le_max_left _ _, ?_⟩
  · exact max_le (by norm_num) (min_le_right _ _)
  · exact max_le (by norm_num) (min_le_right _ _)

/-- C7 (witness): the bounds at a concrete draw and text. -/
theorem typingReadingBounds_witness :
    (1000 ≤ calculateTypingTime 30 80 0 (1/2) ("Halo".toList)
      ∧ calculateTypingTime 30 80 0 (1/2) ("Halo".toList) ≤ 10000)
    ∧ (500 ≤ calculateReadingTime (1/2) ("Halo".toList)
      ∧ calculateReadingTime (1/2) ("Halo".toList) ≤ 5000) :=
  typingReadingBounds 30 80 0 (1/2) (1/2) ("Halo".toList)
    (by norm_num [drawTypingSpeed])

/-- C9: `stopContact` and `startContact` are idempotent set-membership
operations on the stop-list (`stopContact` never adds a duplicate: the
count of the id becomes `max (old count) 1`), and the round trip
`startContact (stopContact l id) id` leaves the id off the list, so
`shouldReplyToContact` no longer refuses that contact for the stop-list
reason under the resulting setting. -/
theorem stopStartRoundTrip (l : List Str) (s : Settings) (day mins : Int)
    (c : ContactRec) (messageCount : Int)
    (hs : s.stopped_contacts = some (startContact (stopContact l c.id) c.id)) :
    stopContact (stopContact l c.id) c.id = stopContact l c.id
    ∧ startContact (startContact l c.id) c.id = startContact l c.id
    ∧ (c.id ∈ l → stopContact l c.id = l)
    ∧ (stopContact l c.id).count c.id = max (l.count c.id) 1
    ∧ c.id ∉ startContact (stopContact l c.id) c.id
    ∧ (shouldReplyToContact s day mins c messageCount).reason
        ≠ some reasonStopped := by
  refine ⟨?_, ?_, ?_, ?_, ?_, ?_⟩
  · by_cases h : c.id ∈ l <;> simp [stopContact, h]
  · simp [startContact, List.filter_filter]
  · intro h
    simp [stopContact, h]
  · by_cases h : c.id ∈ l
    · rw [stopContact, if_pos h]
      have h1 : 0 < l.count c.id := List.count_pos_iff.mpr h
      omega
    · rw [stopContact, if_neg h, List.count_append]
      have h0 : l.count c.id = 0 := List.count_eq_zero.mpr h
      simp [h0]
  · simp [startContact, List.mem_filter]
  · refine shouldReply_reason_ne_stopped s day mins c messageCount ?_
    rw [stoppedList, hs]
    simp [startContact, List.mem_filter]

/-- C9 (witness): the round-trip theorem at a concrete list and contact. -/
theorem stopStartRoundTrip_witness :
    stopContact (stopContact ["x".toList] ("c1".toList)) ("c1".toList)
      = stopContact ["x".toList] ("c1".toList)
    ∧ ("c1".toList)
        ∉ startContact (stopContact ["x".toList] ("c1".toList)) ("c1".toList)
    ∧ (shouldReplyToContact exRoundTripSettings 1 600 exContact 0).reason
        ≠ some reasonStopped := by
  have h := stopStartRoundTrip ["x".toList] exRoundTripSettings 1 600
    exContact 0 (by rfl)
  exact ⟨h.1, h.2.2.2.2.1, h.2.2.2.2.2⟩

/-- C10: when the `auto_reply_enabled` setting is absent or its read failed
(`getSetting` returned null, modelled as `none`), `isAutoReplyEnabled`
returns true; only a stored value strictly equal to `false` disables
auto-reply; and with an absent setting the pipeline never terminates with
the auto-reply-disabled outcome. -/
theorem autoReplyDefaultEnabled (s : Settings) (env : Env) :
    (s.auto_reply_enabled = none → isAutoReplyEnabled s = true)
    ∧ (isAutoReplyEnabled s = false ↔ s.auto_reply_enabled = some false)
    ∧ (env.settings.auto_reply_enabled = none →
        ∀ tr, handleIncomingMessage env ≠ (Outcome.autoReplyDisabled, tr)) := by
  refine ⟨?_, ?_, ?_⟩
  · intro h
    simp [isAutoReplyEnabled, h]
  · simp [isAutoReplyEnabled]
  · intro h tr hcontra
    have hdis := handle_autoReplyDisabled env tr hcontra
    have hen : isAutoReplyEnabled env.settings = true := by
      simp [isAutoReplyEnabled, h]
    rw [hdis] at hen
    exact Bool.false_ne_true hen

/-- C10 (witness): the theorem at the all-absent settings snapshot and a
concrete environment whose `auto_reply_enabled` is absent. -/
theorem autoReplyDefaultEnabled_witness :
    isAutoReplyEnabled emptySettings = true
    ∧ handleIncomingMessage exEnvStopped ≠ (Outcome.autoReplyDisabled, []) :=
  ⟨(autoReplyDefaultEnabled emptySettings exEnvStopped).1 rfl,
   (autoReplyDefaultEnabled emptySettings exEnvStopped).2.2 rfl []⟩

/-- C4: for a contact on the `stopped_contacts` list, the eligibility check
fails at every message count; no AI completion call ever appears in the
pipeline's effect trace; and whenever the handler reaches the eligibility
check (event actionable, auto-reply on, business hours passed), the
terminal outcome is the skip with the stop-list reason — all regardless of
the message content carried by `env.msg`. -/
theorem stoplistedNeverAi (env : Env) (mc : Int)
    (hstop : env.contact.id ∈ stoppedList env.settings) :
    ((shouldReplyToContact env.settings env.day env.mins env.contact mc).should
        = false)
    ∧ (∀ cid body, Effect.aiCall cid body ∉ (handleIncomingMessage env).2)
    ∧ (env.msg.fromMe = false → env.msg.isStatus = false →
        isAutoReplyEnabled env.settings = true →
        bhFail env.settings env.day env.mins = false →
        (handleIncomingMessage env).1 = Outcome.skipped (some reasonStopped)) := by
  refine ⟨shouldReply_should_false_of_stopped env.settings env.day env.mins
    env.contact mc hstop, ?_, ?_⟩
  · intro cid body h
    have htrue := handle_aiCall_mem env cid body h
    have hfalse := shouldReply_should_false_of_stopped env.settings env.day
      env.mins env.contact 0 hstop
    rw [htrue] at hfalse
    exact Bool.noConfusion hfalse
  · intro h1 h2 h3 h4
    have hsr := shouldReply_stop env.settings env.day env.mins env.contact 0
      h3 h4 (capHit_zero env.settings) hstop
    simp [handleIncomingMessage, handleBody, h1, h2, h3, h4, hsr]

/-- C4 (witness): the theorem at a concrete stop-listed environment. -/
theorem stoplistedNeverAi_witness :
    (shouldReplyToContact exEnvStopped.settings exEnvStopped.day
      exEnvStopped.mins exEnvStopped.contact 0).should = false
    ∧ Effect.aiCall ("c1".toList) ("hello".toList)
        ∉ (handleIncomingMessage exEnvStopped).2
    ∧ (handleIncomingMessage exEnvStopped).1
        = Outcome.skipped (some reasonStopped) := by
  have h := stoplistedNeverAi exEnvStopped 0 (by decide)
  exact ⟨h.1, h.2.1 ("c1".toList) ("hello".toList),
    h.2.2 (by decide) (by decide) (by decide) (by decide)⟩

/-- C1 (counterexample): the eligibility check evaluates the per-day cap
before the stop-list.  With a cap of 5, a message count of 10 and the
contact stop-listed, the returned reason is the cap reason, not the
stop-list reason — refuting the claimed order (a) stop-list, (b) group,
(c) cap. -/
theorem eligibilityOrder_cex :
    shouldReplyToContact exSettingsCap 1 600 exContact 10
      = ⟨false, some reasonMaxReplies⟩
    ∧ exContact.id ∈ stoppedList exSettingsCap
    ∧ reasonMaxReplies ≠ reasonStopped := by
  decide

/-- C1 (amended): `shouldReplyToContact` evaluates, in order and failing
fast: the auto-reply flag, business hours, the per-day cap, the stop-list,
and the group flag, each with a distinct reason string; moreover the
handler invokes it with the default `messageCount = 0`, under which the cap
condition is unsatisfiable, so no inbound message is ever skipped with the
cap reason — the per-day cap is not enforced by the pipeline. -/
theorem eligibilityOrder (s : Settings) (day mins : Int) (c : ContactRec)
    (mc : Int) (env : Env) :
    (isAutoReplyEnabled s = false →
      shouldReplyToContact s day mins c mc = ⟨false, some reasonAutoReplyDisabled⟩)
    ∧ (isAutoReplyEnabled s = true → bhFail s day mins = true →
      shouldReplyToContact s day mins c mc = ⟨false, some reasonOutsideBusinessHours⟩)
    ∧ (isAutoReplyEnabled s = true → bhFail s day mins = false →
        capHit s mc = true →
      shouldReplyToContact s day mins c mc = ⟨false, some reasonMaxReplies⟩)
    ∧ (isAutoReplyEnabled s = true → bhFail s day mins = false →
        capHit s mc = false → c.id ∈ stoppedList s →
      shouldReplyToContact s day mins c mc = ⟨false, some reasonStopped⟩)
    ∧ (isAutoReplyEnabled s = true → bhFail s day mins = false →
        capHit s mc = false → c.id ∉ stoppedList s →
        (c.isGroup && ¬ obool s.reply_in_groups) = true →
      shouldReplyToContact s day mins c mc = ⟨false, some reasonGroupDisabled⟩)
    ∧ (isAutoReplyEnabled s = true → bhFail s day mins = false →
        capHit s mc = false → c.id ∉ stoppedList s →
        (c.isGroup && ¬ obool s.reply_in_groups) = false →
      shouldReplyToContact s day mins c mc = ⟨true, none⟩)
    ∧ List.Pairwise (fun a b => a ≠ b)
        [reasonAutoReplyDisabled, reasonOutsideBusinessHours, reasonMaxReplies,
         reasonStopped, reasonGroupDisabled]
    ∧ capHit s 0 = false
    ∧ (handleIncomingMessage env).1 ≠ Outcome.skipped (some reasonMaxReplies) := by
  refine ⟨shouldReply_auto s day mins c mc, shouldReply_bh s day mins c mc,
    shouldReply_cap s day mins c mc, shouldReply_stop s day mins c mc,
    shouldReply_group s day mins c mc, shouldReply_ok s day mins c mc,
    by decide, capHit_zero s, ?_⟩
  intro h
  rcases hpr : handleIncomingMessage env with ⟨o, tr⟩
  rw [hpr] at h
  simp only at h
  subst h
  have hsk := handle_skipped env (some reasonMaxReplies) tr hpr
  exact shouldReply_reason_ne_max env.settings env.day env.mins env.contact 0
    (capHit_zero env.settings) hsk.1.symm

/-- C1 (witness): the amended theorem at concrete settings, counts and an
environment. -/
theorem eligibilityOrder_witness :
    shouldReplyToContact exSettingsDisabled 1 600 exContact 0
      = ⟨false, some reasonAutoReplyDisabled⟩
    ∧ shouldReplyToContact exSettingsCap 1 600 exContact 10
      = ⟨false, some reasonMaxReplies⟩
    ∧ capHit exSettingsCap 0 = false
    ∧ (handleIncomingMessage exEnvStopped).1
        ≠ Outcome.skipped (some reasonMaxReplies) := by
  have h1 := eligibilityOrder exSettingsDisabled 1 600 exContact 0 exEnvStopped
  have h2 := eligibilityOrder exSettingsCap 1 600 exContact 10 exEnvStopped
  exact ⟨h1.1 (by decide), h2.2.2.1 (by decide) (by decide) (by decide),
    h2.2.2.2.2.2.2.2.1, h2.2.2.2.2.2.2.2.2⟩

/-- C2 (counterexample): the out-of-office send is recorded through
`saveAIMessage`, which hard-codes `isAiGenerated: true`, so the
out-of-office row's flag is true, not false as claimed. -/
theorem oooRowAiFlag_cex :
    handleIncomingMessage exEnvOOO =
      (Outcome.outsideBusinessHours,
       [Effect.savedInbound, Effect.sent exOoo,
        Effect.savedBotMessage ("c1".toList) exOoo true])
    ∧ Effect.savedBotMessage ("c1".toList) exOoo false
        ∉ (handleIncomingMessage exEnvOOO).2 := by
  decide

/-- C2 (amended): with a reliable transport, every bot-authored `Message`
row the pipeline records has `isAiGenerated = true` — in all four send
branches (out-of-office, stop acknowledgment, handoff acknowledgment, AI
reply), not only the AI-reply one — and one invocation records exactly one
bot-authored row exactly when it sent something (each send action is
recorded once). -/
theorem botRowsAiFlag (env : Env)
    (hplan : env.transportPlan = fun _ => none) :
    (∀ cid body flag,
      Effect.savedBotMessage cid body flag ∈ (handleIncomingMessage env).2 →
        flag = true)
    ∧ (((handleIncomingMessage env).2.filter isSavedBot).length ≤ 1)
    ∧ ((((handleIncomingMessage env).2.filter isSavedBot).length = 1) ↔
        ∃ b, Effect.sent b ∈ (handleIncomingMessage env).2) := by
  unfold handleIncomingMessage
  rcases hb : handleBody env with ⟨res, tr⟩
  simp only [handleBody, hplan] at hb
  repeat' split at hb
  all_goals cases hb
  all_goals try simp_all [isSavedBot, sendChunks_none]
  rename_i aiResponse x a trS hgates hauto hbhf hsr hstopk hreq hai htrim
    hlen heq
  subst heq
  refine ⟨?_, ?_, ?_⟩
  · intro cid body
    simp [List.mem_map]
  · intro a ha
    rcases List.mem_map.mp ha with ⟨c, _, rfl⟩
    rfl
  · constructor
    · intro _
      exact sent_mem_map_chunks aiResponse htrim
    · intro _ a ha
      rcases List.mem_map.mp ha with ⟨c, _, rfl⟩
      rfl

/-- C2 (witness): the amended theorem at the concrete out-of-office
environment. -/
theorem botRowsAiFlag_witness :
    ((handleIncomingMessage exEnvOOO).2.filter isSavedBot).length ≤ 1
    ∧ ((((handleIncomingMessage exEnvOOO).2.filter isSavedBot).length = 1) ↔
        ∃ b, Effect.sent b ∈ (handleIncomingMessage exEnvOOO).2) := by
  have h := botRowsAiFlag exEnvOOO rfl
  exact ⟨h.2.1, h.2.2⟩

set_option maxRecDepth 100000 in
/-- C3 (counterexample): a transport failure on the second chunk of a
two-chunk reply is caught and swallowed, but the first chunk has already
been sent — a partial multi-chunk reply goes out even though an exception
occurred. -/
theorem partialDelivery_cex :
    chunkMessage exBigResp 500 = [exChunkA, exChunkB]
    ∧ handleIncomingMessage exEnvPartialSend =
        (Outcome.caughtError ("send-failed".toList),
         [Effect.savedInbound, Effect.aiCall ("c1".toList) ("hello".toList),
          Effect.sent exChunkA])
    ∧ Effect.sent exChunkB ∉ (handleIncomingMessage exEnvPartialSend).2 := by
  decide

/-- C3 (amended): `handleIncomingMessage` never lets an exception escape —
every exception is caught at its boundary and the invocation terminates
with the logged-and-swallowed outcome; in particular, when the AI
completion call throws, the pipeline terminates having sent nothing (the
trace holds only the inbound save and the AI call).  No guarantee excludes
a partial multi-chunk reply when the transport fails mid-delivery. -/
theorem noEscapeNoSendOnAiFailure (env : Env) (e : Err)
    (h1 : env.msg.fromMe = false) (h2 : env.msg.isStatus = false)
    (h3 : isAutoReplyEnabled env.settings = true)
    (h4 : bhFail env.settings env.day env.mins = false)
    (h5 : (shouldReplyToContact env.settings env.day env.mins
            env.contact 0).should = true)
    (h6 : checkStopKeyword env.settings env.msg.body = false)
    (h7 : checkRequireHuman env.settings env.msg.body = false)
    (h8 : env.aiResult = Except.error e) :
    handleIncomingMessage env =
      (Outcome.caughtError e,
       [Effect.savedInbound, Effect.aiCall env.contact.id env.msg.body]) := by
  simp [handleIncomingMessage, handleBody, h1, h2, h3, h4, h5, h6, h7, h8]

/-- C3 (witness): the amended theorem at a concrete environment whose AI
call throws. -/
theorem noEscapeNoSendOnAiFailure_witness :
    handleIncomingMessage exEnvAiFail =
      (Outcome.caughtError ("completion-error".toList),
       [Effect.savedInbound,
        Effect.aiCall ("c1".toList) ("hello".toList)]) :=
  noEscapeNoSendOnAiFailure exEnvAiFail ("completion-error".toList)
    (by decide) (by decide) (by decide) (by decide) (by decide) (by decide)
    (by decide) rfl

/-- C5 (counterexample): in the stop-keyword branch the acknowledgment is
sent (and recorded) before the durable stop-list write: in the trace the
send strictly precedes the `stopped_contacts` write. -/
theorem stopWriteAfterSend_cex :
    handleIncomingMessage exEnvStop =
      (Outcome.stoppedAck,
       [Effect.savedInbound, Effect.sent exStopMsg,
        Effect.savedBotMessage ("c1".toList) exStopMsg true,
        Effect.stopListWrite ("c1".toList)])
    ∧ List.indexOf (Effect.sent exStopMsg) (handleIncomingMessage exEnvStop).2
        < List.indexOf (Effect.stopListWrite ("c1".toList))
            (handleIncomingMessage exEnvStop).2 := by
  decide

/-- C5 (amended): in both the stop-keyword and the require-human branches,
the acknowledgment send happens first and the durable stop-list write
happens after it (and after the bot-row save) — the reverse of the claimed
order. -/
theorem ackPrecedesStopWrite (env : Env)
    (hplan : env.transportPlan = fun _ => none)
    (h1 : env.msg.fromMe = false) (h2 : env.msg.isStatus = false)
    (h3 : isAutoReplyEnabled env.settings = true)
    (h4 : bhFail env.settings env.day env.mins = false)
    (h5 : (shouldReplyToContact env.settings env.day env.mins
            env.contact 0).should = true)
    (hmem : env.contact.id ∉ stoppedList env.settings) :
    (checkStopKeyword env.settings env.msg.body = true →
      handleIncomingMessage env =
        (Outcome.stoppedAck,
         [Effect.savedInbound,
          Effect.sent (env.settings.stop_message.getD []),
          Effect.savedBotMessage env.contact.id
            (env.settings.stop_message.getD []) true,
          Effect.stopListWrite env.contact.id]))
    ∧ (checkStopKeyword env.settings env.msg.body = false →
       checkRequireHuman env.settings env.msg.body = true →
      handleIncomingMessage env =
        (Outcome.humanAck,
         [Effect.savedInbound,
          Effect.sent (env.settings.require_human_message.getD []),
          Effect.savedBotMessage env.contact.id
            (env.settings.require_human_message.getD []) true,
          Effect.stopListWrite env.contact.id])) := by
  constructor
  · intro hstop
    simp [handleIncomingMessage, handleBody, hplan, h1, h2, h3, h4, h5,
      hstop, hmem]
  · intro hstop hhum
    simp [handleIncomingMessage, handleBody, hplan, h1, h2, h3, h4, h5,
      hstop, hhum, hmem]

/-- C5 (witness): the amended theorem at the concrete stop-keyword and
require-human environments. -/
theorem ackPrecedesStopWrite_witness :
    handleIncomingMessage exEnvStop =
      (Outcome.stoppedAck,
       [Effect.savedInbound, Effect.sent exStopMsg,
        Effect.savedBotMessage ("c1".toList) exStopMsg true,
        Effect.stopListWrite ("c1".toList)])
    ∧ handleIncomingMessage exEnvHuman =
      (Outcome.humanAck,
       [Effect.savedInbound, Effect.sent exHumanMsg,
        Effect.savedBotMessage ("c1".toList) exHumanMsg true,
        Effect.stopListWrite ("c1".toList)]) := by
  have hs := ackPrecedesStopWrite exEnvStop rfl (by decide) (by decide)
    (by decide) (by decide) (by decide) (by decide)
  have hh := ackPrecedesStopWrite exEnvHuman rfl (by decide) (by decide)
    (by decide) (by decide) (by decide) (by decide)
  exact ⟨hs.1 (by decide), hh.2 (by decide) (by decide)⟩

/-- C8: the composed prompt always contains the new message body verbatim
(as a contiguous substring: the "PESAN CUSTOMER SEKARANG" section), and the
knowledge and history lists it renders — `getRelevantKnowledge kb prompt 3`
and `getConversationHistory rows contactId 10` — never hold more than 3
and 10 entries respectively (the maxima N = 3 and M = 10 are the
hard-coded defaults of the source's `limit` parameters). -/
theorem composeContainsAndBounded (config : AIConfigRec)
    (kb : List KnowledgeEntry) (rows : List MessageRow) (prompt : Str)
    (contactName contactId : Option Str) (nowStr : Str) (cid : Str) :
    (∃ a b : Str,
      buildContextualPrompt config kb rows prompt contactName contactId nowStr
        = a ++ prompt ++ b)
    ∧ (getRelevantKnowledge kb prompt 3).length ≤ 3
    ∧ (getConversationHistory rows cid 10).length ≤ 10 := by
  refine ⟨?_, ?_, ?_⟩
  · refine ⟨promptSystemSection config
      ++ promptKnowledgeSection config kb prompt
      ++ promptHistorySection config rows contactId
      ++ promptContextSection contactName nowStr
      ++ "=== PESAN CUSTOMER SEKARANG ===\n".toList,
      "\n\n".toList
      ++ "=== TUGAS ANDA ===\nBerikan jawaban yang relevan, personal, dan sesuai konteks percakapan. Gunakan riwayat chat dan knowledge base yang tersedia.\n\n".toList
      ++ "JAWABAN ANDA:\n".toList, ?_⟩
    simp only [buildContextualPrompt, List.append_assoc]
  · simp only [getRelevantKnowledge]
    split
    · simp
    · simp only [List.length_map, List.length_take]
      omega
  · unfold getConversationHistory
    simp only [List.length_map, List.length_reverse, List.length_take]
    omega

end Wapi
